import Mathlib

/-!
Verification of the Lake Powell inflow forecasting pipeline
(`src/components/LakePowellInflowTool.jsx`, here called the *main* pipeline,
together with the two earlier drafts in `src/App.tsx`, called *variant A*
(the first component in that file) and *variant B* (the second)).

All JavaScript numbers are modelled as rationals (`ℚ`).  The CSV rows, as
delivered by the `Papa.parse` front end with `dynamicTyping: true`, are
modelled by the `Cell` type: a numeric-looking field arrives as `Cell.num q`,
a non-numeric string stays `Cell.str s`, and a missing field
(`undefined`/`null`) is `Cell.empty`.  `Number(x)` applied to a non-numeric
string or to `undefined` yields `NaN`; `Number(null)` and `Number('')` yield
`0`.  Both outcomes are composed with `|| 0` (measurements) or `|| NaN`
(the year) in the source, under which the two behaviours coincide, so
`jsNumber` may return `none` for every `str`/`empty` cell without loss.
-/

namespace UCRB

/-- A CSV field value after dynamic typing. -/
inductive Cell where
  | num (q : ℚ)
  | str (s : String)
  | empty
deriving DecidableEq

/-- One raw CSV row with the six columns the tool reads. -/
structure RawRow where
  water_year : Cell
  apr1_swe_mm : Cell
  fall_sm_oct_nov_avg_mm : Cell
  spring_precip_apr_jul_mm : Cell
  key_streamflow_apr_jul_mm : Cell
  total_streamflow_mm : Cell

/-- `Number(x)` as an `Option ℚ`, `none` standing for `NaN` (see the header
comment for why `str`/`empty` may both go to `none`). -/
def jsNumber : Cell → Option ℚ
  | .num q => some q
  | .str _ => none
  | .empty => none

/-- `Number(x) || 0`: the coercion used for measurement fields. -/
def jsNumberOr0 (c : Cell) : ℚ :=
  match jsNumber c with
  | some q => q
  | none => 0

/-- `Number(x) || NaN`: the coercion used for `water_year` (a zero year is
also turned into `NaN` by the `||`). -/
def jsYear (c : Cell) : Option ℚ :=
  match jsNumber c with
  | some q => if q = 0 then none else some q
  | none => none

/-- The main pipeline's first row filter:
`d.water_year !== undefined && d.water_year !== null && d.water_year !== ''`. -/
def keepRow (d : RawRow) : Bool :=
  match d.water_year with
  | .num _ => true
  | .str s => s ≠ ""
  | .empty => false

/-- JavaScript truthiness of a cell, used by variant A's row filter
`results.data.filter(d => d.water_year)`. -/
def jsTruthy : Cell → Bool
  | .num q => q ≠ 0
  | .str s => s ≠ ""
  | .empty => false

/-- A typed record of the main pipeline after the `Number` coercions
(`data` in the source); rows whose year mapped to `NaN` are already gone. -/
structure DRec where
  water_year : ℚ
  water_year_label : ℚ
  apr1_swe_mm : ℚ
  fall_sm_oct_nov_avg_mm : ℚ
  spring_precip_apr_jul_mm : ℚ
  key_streamflow_apr_jul_mm : ℚ
  total_streamflow_mm : ℚ

/-- Intermediate record of the main pipeline right after the `map`:
the year is still `Option ℚ` because `Number(d.water_year) || NaN` may be
`NaN`. -/
structure PreRec where
  water_year : Option ℚ
  apr1_swe_mm : ℚ
  fall_sm_oct_nov_avg_mm : ℚ
  spring_precip_apr_jul_mm : ℚ
  key_streamflow_apr_jul_mm : ℚ
  total_streamflow_mm : ℚ

/-- The `map` step of the main pipeline's `complete` callback. -/
def toPre (d : RawRow) : PreRec :=
  ⟨jsYear d.water_year, jsNumberOr0 d.apr1_swe_mm, jsNumberOr0 d.fall_sm_oct_nov_avg_mm,
    jsNumberOr0 d.spring_precip_apr_jul_mm, jsNumberOr0 d.key_streamflow_apr_jul_mm,
    jsNumberOr0 d.total_streamflow_mm⟩

/-- Extraction of the numeric year after the `!Number.isNaN` filter. -/
def preToDRec (p : PreRec) : DRec :=
  ⟨(p.water_year).getD 0, (p.water_year).getD 0, p.apr1_swe_mm, p.fall_sm_oct_nov_avg_mm,
    p.spring_precip_apr_jul_mm, p.key_streamflow_apr_jul_mm, p.total_streamflow_mm⟩

/-- The main pipeline's row parsing: filter on a present `water_year` cell,
coerce every field with `Number`, then drop the rows whose year became
`NaN` (`water_year_label` receives the same coerced year). -/
def mainParse (rows : List RawRow) : List DRec :=
  (((rows.filter keepRow).map toPre).filter (fun p => p.water_year.isSome)).map preToDRec

/-- Baseline period 1991-2020 filter (identical in all three variants). -/
def baselineFilter (data : List DRec) : List DRec :=
  data.filter (fun d => decide (1991 ≤ d.water_year) && decide (d.water_year ≤ 2020))

/-- The main pipeline's `safeMean`: the accessor values are already numbers
here (the `typeof v === 'number'` filter keeps everything), and the
denominator is `Math.max(1, vals.length)`. -/
def safeMean (vals : List ℚ) : ℚ :=
  vals.sum / max 1 (vals.length : ℚ)

/-- `m || eps` with `eps = 1e-9`: the main pipeline's guard against a zero
baseline mean. -/
def epsAdjust (m : ℚ) : ℚ :=
  if m = 0 then 1 / 1000000000 else m

/-- Baseline means of the four variables. -/
structure MeansQ where
  swe : ℚ
  fallSM : ℚ
  springPrecip : ℚ
  streamflow : ℚ

/-- The main pipeline's `means` object computed from the baseline subset,
with the epsilon adjustment applied to each field. -/
def mkMeans (base : List DRec) : MeansQ :=
  ⟨epsAdjust (safeMean (base.map (fun d => d.apr1_swe_mm))),
    epsAdjust (safeMean (base.map (fun d => d.fall_sm_oct_nov_avg_mm))),
    epsAdjust (safeMean (base.map (fun d => d.spring_precip_apr_jul_mm))),
    epsAdjust (safeMean (base.map (fun d => d.key_streamflow_apr_jul_mm)))⟩

/-- One processed year (`processedData` entry). -/
structure YearData where
  year : ℚ
  swe_mm : ℚ
  fallSM_mm : ℚ
  springPrecip_mm : ℚ
  streamflow_mm : ℚ
  totalStreamflow_mm : ℚ
  swe_pct : ℚ
  fallSM_pct : ℚ
  springPrecip_pct : ℚ
  streamflow_pct : ℚ

/-- The main pipeline's `processedData` map: raw mm values plus the
percent-of-baseline derived fields. -/
def toYearData (means : MeansQ) (d : DRec) : YearData :=
  ⟨d.water_year, d.apr1_swe_mm, d.fall_sm_oct_nov_avg_mm, d.spring_precip_apr_jul_mm,
    d.key_streamflow_apr_jul_mm, d.total_streamflow_mm,
    d.apr1_swe_mm / means.swe * 100,
    d.fall_sm_oct_nov_avg_mm / means.fallSM * 100,
    d.spring_precip_apr_jul_mm / means.springPrecip * 100,
    d.key_streamflow_apr_jul_mm / means.streamflow * 100⟩

/-- `Math.min(...)` over a list; the empty case never arises on the guarded
paths of the source (JavaScript would give `Infinity` there). -/
def jsMin : List ℚ → ℚ
  | [] => 0
  | v :: vs => vs.foldl min v

/-- `Math.max(...)` over a list (empty case as in `jsMin`). -/
def jsMax : List ℚ → ℚ
  | [] => 0
  | v :: vs => vs.foldl max v

/-- `{min, max, mean}` of one percent series. -/
structure RangeQ where
  min : ℚ
  max : ℚ
  mean : ℚ

/-- The main pipeline's `safeRange`. -/
def safeRange (vals : List ℚ) : RangeQ :=
  if vals.length = 0 then ⟨100, 100, 100⟩ else ⟨jsMin vals, jsMax vals, 100⟩

/-- The four `VariableRange`s. -/
structure Ranges where
  swe_pct : RangeQ
  fallSM_pct : RangeQ
  springPrecip_pct : RangeQ
  streamflow_pct : RangeQ

/-- One histogram bin `{value, count, binStart, binEnd}`. -/
structure Bin where
  value : ℚ
  count : ℕ
  binStart : ℚ
  binEnd : ℚ

/-- `bins[idx]++` on a JavaScript array of numbers: an out-of-range (or
`NaN`) index leaves every numeric entry unchanged. -/
def bump (bins : List ℕ) (i : ℤ) : List ℕ :=
  if 0 ≤ i ∧ i.toNat < bins.length then bins.set i.toNat (bins.getD i.toNat 0 + 1) else bins

/-- `Math.min(Math.floor((v - min) / binWidth), numBins - 1)`. -/
def jsIdx (mn w : ℚ) (numBins : ℕ) (v : ℚ) : ℤ :=
  min ⌊(v - mn) / w⌋ ((numBins : ℤ) - 1)

/-- `bins.map((count, i) => ({value: ..., count, binStart: ..., binEnd: ...}))`,
written as an index-carrying recursion. -/
def binsOf (mn w : ℚ) : ℕ → List ℕ → List Bin
  | _, [] => []
  | i, c :: cs =>
    ⟨mn + ((i : ℚ) + 1 / 2) * w, c, mn + (i : ℚ) * w, mn + ((i : ℚ) + 1) * w⟩ ::
      binsOf mn w (i + 1) cs

/-- The main pipeline's `createHistogram` (the source gives `numBins` the
default value 15; every call site uses that default).  It guards the empty
series and collapses a near-constant series (`|max - min| < 1e-6`) into one
synthetic bin of width 1 centred on the value. -/
def createHistogram (values : List ℚ) (numBins : ℕ) : List Bin :=
  if values.length = 0 then []
  else if |jsMax values - jsMin values| < 1 / 1000000 then
    [⟨jsMin values, values.length, jsMin values - 1 / 2, jsMin values + 1 / 2⟩]
  else
    binsOf (jsMin values) ((jsMax values - jsMin values) / numBins) 0
      (values.foldl
        (fun b v => bump b (jsIdx (jsMin values) ((jsMax values - jsMin values) / numBins) numBins v))
        (List.replicate numBins 0))

/-- Variant A's `createHistogram` (App.tsx, first draft): no emptiness and
no constant-series guard.  When `binWidth = 0` (a constant series) the
JavaScript index is `Math.floor(0/0) = NaN` and `bins[NaN]++` changes no
numeric entry, which the embedding renders by skipping the increment. -/
def variantA_createHistogram (values : List ℚ) (numBins : ℕ) : List Bin :=
  binsOf (jsMin values) ((jsMax values - jsMin values) / numBins) 0
    (values.foldl
      (fun b v =>
        if (jsMax values - jsMin values) / numBins = 0 then b
        else bump b (jsIdx (jsMin values) ((jsMax values - jsMin values) / numBins) numBins v))
      (List.replicate numBins 0))

/-- The four histograms stored on the dataset. -/
structure Histograms where
  swe : List Bin
  fallSM : List Bin
  springPrecip : List Bin
  streamflow : List Bin

/-- `historicalData` as set by the main pipeline's `complete` callback. -/
structure Dataset where
  years : List YearData
  means : MeansQ
  ranges : Ranges
  histograms : Histograms

/-- The non-error branch of the main pipeline's `complete` callback:
baseline means (with epsilon guard), percent fields, ranges and
histograms. -/
def buildDataset (data : List DRec) : Dataset :=
  ⟨data.map (toYearData (mkMeans (baselineFilter data))),
    mkMeans (baselineFilter data),
    ⟨safeRange ((data.map (toYearData (mkMeans (baselineFilter data)))).map (fun d => d.swe_pct)),
      safeRange ((data.map (toYearData (mkMeans (baselineFilter data)))).map (fun d => d.fallSM_pct)),
      safeRange ((data.map (toYearData (mkMeans (baselineFilter data)))).map (fun d => d.springPrecip_pct)),
      safeRange ((data.map (toYearData (mkMeans (baselineFilter data)))).map (fun d => d.streamflow_pct))⟩,
    ⟨createHistogram ((data.map (toYearData (mkMeans (baselineFilter data)))).map (fun d => d.swe_pct)) 15,
      createHistogram ((data.map (toYearData (mkMeans (baselineFilter data)))).map (fun d => d.fallSM_pct)) 15,
      createHistogram ((data.map (toYearData (mkMeans (baselineFilter data)))).map (fun d => d.springPrecip_pct)) 15,
      createHistogram ((data.map (toYearData (mkMeans (baselineFilter data)))).map (fun d => d.streamflow_pct)) 15⟩⟩

/-- The main pipeline's `complete` callback: parse the rows, and fail with
the data error when the 1991-2020 baseline subset is empty, otherwise
publish the dataset. -/
def mainLoadData (rows : List RawRow) : Except String Dataset :=
  if (baselineFilter (mainParse rows)).length = 0 then
    Except.error "No baseline (1991-2020) records found in CSV."
  else
    Except.ok (buildDataset (mainParse rows))

/-- The deviation-coded predictor `X[j][i]` of the regression. -/
def predDev (i : Fin 3) (y : YearData) : ℚ :=
  match i with
  | ⟨0, _⟩ => y.swe_pct - 100
  | ⟨1, _⟩ => y.fallSM_pct - 100
  | ⟨2, _⟩ => y.springPrecip_pct - 100

/-- The deviation-coded response `Y[j]`. -/
def flowDev (y : YearData) : ℚ :=
  y.streamflow_pct - 100

/-- `sumXY` of the per-variable slope loop. -/
def sumXY (ys : List YearData) (i : Fin 3) : ℚ :=
  (ys.map (fun y => predDev i y * flowDev y)).sum

/-- `sumX2` of the per-variable slope loop. -/
def sumX2 (ys : List YearData) (i : Fin 3) : ℚ :=
  (ys.map (fun y => predDev i y * predDev i y)).sum

/-- `beta[i] = sumX2 > 0 ? sumXY / sumX2 : 0` (identical in all three
variants). -/
def regressionBeta (ys : List YearData) (i : Fin 3) : ℚ :=
  if sumX2 ys i > 0 then sumXY ys i / sumX2 ys i else 0

/-- The raw (unclamped) forecast percent
`100 + Σ (inputᵢ - 100) * beta[i]`. -/
def rawForecastPct (ys : List YearData) (i1 i2 i3 : ℚ) : ℚ :=
  100 + (i1 - 100) * regressionBeta ys 0 + (i2 - 100) * regressionBeta ys 1 +
    (i3 - 100) * regressionBeta ys 2

/-- The published forecast percent: the raw value clamped into the
historical streamflow percent range,
`Math.max(min, Math.min(max, raw))`. -/
def forecastPct (d : Dataset) (i1 i2 i3 : ℚ) : ℚ :=
  max d.ranges.streamflow_pct.min
    (min d.ranges.streamflow_pct.max (rawForecastPct d.years i1 i2 i3))

/-- The main pipeline's absolute forecast,
`(forecastPct / 100) * means.streamflow`, computed from the *clamped*
percent. -/
def forecastedFlowMM (d : Dataset) (i1 i2 i3 : ℚ) : ℚ :=
  forecastPct d i1 i2 i3 / 100 * d.means.streamflow

/-- The analog-year tolerance test: all three predictors within 15
percentage points of the inputs. -/
def analogTol (i1 i2 i3 : ℚ) (y : YearData) : Bool :=
  decide (|y.swe_pct - i1| ≤ 15) && decide (|y.fallSM_pct - i2| ≤ 15) &&
    decide (|y.springPrecip_pct - i3| ≤ 15)

/-- The tolerance survivors sorted by descending absolute streamflow
(`.sort((a, b) => b.streamflow_mm - a.streamflow_mm)`). -/
def analogSorted (ys : List YearData) (i1 i2 i3 : ℚ) : List YearData :=
  (ys.filter (analogTol i1 i2 i3)).mergeSort (fun a b => decide (b.streamflow_mm ≤ a.streamflow_mm))

/-- The published analog-year list: the sorted survivors truncated to 5. -/
def analogYears (ys : List YearData) (i1 i2 i3 : ℚ) : List YearData :=
  (analogSorted ys i1 i2 i3).take 5

/-! ### Variant A (the first draft in App.tsx)

Variant A applies no `Number` coercion at all: its records are the raw
parsed rows.  `cellVal` reads the numeric payload of a cell; on `str`/
`empty` cells JavaScript arithmetic would produce `NaN`, which has no `ℚ`
counterpart, so every variant-A fact proved below is evaluated on rows
whose cells are all numeric, where `cellVal` is exact. -/

/-- Numeric payload of a cell (exact on `Cell.num`, junk `0` otherwise;
see the section comment). -/
def cellVal : Cell → ℚ
  | .num q => q
  | .str _ => 0
  | .empty => 0

/-- Variant A's row filter `results.data.filter(d => d.water_year)`:
plain JavaScript truthiness, which keeps any non-empty string. -/
def variantA_keptRows (rows : List RawRow) : List RawRow :=
  rows.filter (fun d => jsTruthy d.water_year)

/-- Variant A's records (no coercion; the unused `water_year_label` slot of
`DRec` is filled with the year, variant A has no such field). -/
def variantA_parse (rows : List RawRow) : List DRec :=
  (variantA_keptRows rows).map (fun r =>
    ⟨cellVal r.water_year, cellVal r.water_year, cellVal r.apr1_swe_mm,
      cellVal r.fall_sm_oct_nov_avg_mm, cellVal r.spring_precip_apr_jul_mm,
      cellVal r.key_streamflow_apr_jul_mm, cellVal r.total_streamflow_mm⟩)

/-- Variant A's baseline means: plain `reduce(...) / baselineData.length`
with no emptiness check, no `safeMean` and no epsilon guard.  On an empty
baseline JavaScript divides by zero and every mean is `NaN`; the `ℚ`
embedding returns the junk value `0` there (`x / 0 = 0`). -/
def variantA_means (data : List DRec) : MeansQ :=
  ⟨((baselineFilter data).map (fun d => d.apr1_swe_mm)).sum / ((baselineFilter data).length : ℚ),
    ((baselineFilter data).map (fun d => d.fall_sm_oct_nov_avg_mm)).sum / ((baselineFilter data).length : ℚ),
    ((baselineFilter data).map (fun d => d.spring_precip_apr_jul_mm)).sum / ((baselineFilter data).length : ℚ),
    ((baselineFilter data).map (fun d => d.key_streamflow_apr_jul_mm)).sum / ((baselineFilter data).length : ℚ)⟩

/-- Variant A's `processedData` (the percent formulas are those of
`toYearData`, applied to the unguarded means). -/
def variantA_processed (data : List DRec) : List YearData :=
  data.map (toYearData (variantA_means data))

/-- Variant A's streamflow range: direct `Math.min`/`Math.max` over the
series, with no empty guard (variant A stores no `mean` field; the slot is
filled with the unused value 100). -/
def variantA_streamflowRange (data : List DRec) : RangeQ :=
  ⟨jsMin ((variantA_processed data).map (fun d => d.streamflow_pct)),
    jsMax ((variantA_processed data).map (fun d => d.streamflow_pct)), 100⟩

/-- Variant A's displayed forecast percent (clamped, App.tsx line 117). -/
def variantA_forecastPct (data : List DRec) (i1 i2 i3 : ℚ) : ℚ :=
  max (variantA_streamflowRange data).min
    (min (variantA_streamflowRange data).max (rawForecastPct (variantA_processed data) i1 i2 i3))

/-- Variant A's absolute forecast (App.tsx line 118): computed from the
*raw* percent, not the clamped one. -/
def variantA_forecastedFlowMM (data : List DRec) (i1 i2 i3 : ℚ) : ℚ :=
  rawForecastPct (variantA_processed data) i1 i2 i3 / 100 * (variantA_means data).streamflow

/-! ### Concrete sample inputs used in witnesses and counterexamples -/

/-- Two clean baseline rows: streamflow 50 mm and 150 mm (baseline mean
100 mm), a varying SWE column and constant fall/spring columns. -/
def twoYearRows : List RawRow :=
  [⟨.num 2000, .num 50, .num 100, .num 100, .num 50, .num 50⟩,
    ⟨.num 2001, .num 150, .num 100, .num 100, .num 150, .num 150⟩]

/-- A single numeric row whose year 1985 lies outside the 1991-2020
baseline window. -/
def noBaselineRows : List RawRow :=
  [⟨.num 1985, .num 10, .num 10, .num 10, .num 10, .num 10⟩]

/-- A single baseline row whose measurements are all zero (for example a
CSV whose measurement cells are blank): every baseline mean is zero and
the epsilon guard kicks in. -/
def zeroFlowRows : List RawRow :=
  [⟨.num 2000, .num 0, .num 0, .num 0, .num 0, .num 0⟩]

/-- A row whose `water_year` cell is the non-numeric string `n/a`. -/
def strYearRow : RawRow :=
  ⟨.str "n/a", .num 1, .num 1, .num 1, .num 1, .num 1⟩

/-- A row with a valid year whose SWE cell is missing. -/
def blankCellRow : RawRow :=
  ⟨.num 1995, .empty, .num 2, .num 3, .num 4, .num 5⟩

/-- A processed year sitting exactly at 100 percent on every variable. -/
def analogProbeYear : YearData :=
  ⟨2000, 100, 100, 100, 100, 100, 100, 100, 100, 100⟩

/-! ### Helper lemmas -/

theorem foldl_min_le_init (l : List ℚ) : ∀ a : ℚ, l.foldl min a ≤ a := by
  induction l with
  | nil => intro a; simp
  | cons x xs ih =>
    intro a
    calc (x :: xs).foldl min a = xs.foldl min (min a x) := by simp
    _ ≤ min a x := ih (min a x)
    _ ≤ a := min_le_left _ _

theorem foldl_min_le_mem (l : List ℚ) : ∀ (a v : ℚ), v ∈ l → l.foldl min a ≤ v := by
  induction l with
  | nil => intro a v hv; simp at hv
  | cons x xs ih =>
    intro a v hv
    rcases List.mem_cons.mp hv with h | h
    · subst h
      calc (v :: xs).foldl min a = xs.foldl min (min a v) := by simp
      _ ≤ min a v := foldl_min_le_init _ _
      _ ≤ v := min_le_right _ _
    · simpa using ih (min a x) v h

theorem jsMin_le (l : List ℚ) (v : ℚ) (hv : v ∈ l) : jsMin l ≤ v := by
  cases l with
  | nil => simp at hv
  | cons x xs =>
    rcases List.mem_cons.mp hv with h | h
    · subst h; exact foldl_min_le_init xs v
    · exact foldl_min_le_mem xs x v h

theorem init_le_foldl_max (l : List ℚ) : ∀ a : ℚ, a ≤ l.foldl max a := by
  induction l with
  | nil => intro a; simp
  | cons x xs ih =>
    intro a
    calc a ≤ max a x := le_max_left _ _
    _ ≤ xs.foldl max (max a x) := ih (max a x)
    _ = (x :: xs).foldl max a := by simp

theorem mem_le_foldl_max (l : List ℚ) : ∀ (a v : ℚ), v ∈ l → v ≤ l.foldl max a := by
  induction l with
  | nil => intro a v hv; simp at hv
  | cons x xs ih =>
    intro a v hv
    rcases List.mem_cons.mp hv with h | h
    · subst h
      calc v ≤ max a v := le_max_right _ _
      _ ≤ xs.foldl max (max a v) := init_le_foldl_max _ _
      _ = (v :: xs).foldl max a := by simp
    · simpa using ih (max a x) v h

theorem le_jsMax (l : List ℚ) (v : ℚ) (hv : v ∈ l) : v ≤ jsMax l := by
  cases l with
  | nil => simp at hv
  | cons x xs =>
    rcases List.mem_cons.mp hv with h | h
    · subst h; exact init_le_foldl_max xs v
    · exact mem_le_foldl_max xs x v h

theorem jsMin_le_jsMax (l : List ℚ) (hl : l ≠ []) : jsMin l ≤ jsMax l := by
  cases l with
  | nil => exact absurd rfl hl
  | cons x xs =>
    exact le_trans (jsMin_le (x :: xs) x (by simp)) (le_jsMax (x :: xs) x (by simp))

theorem foldl_min_const (l : List ℚ) (a : ℚ) (h : ∀ x ∈ l, x = a) : l.foldl min a = a := by
  induction l with
  | nil => simp
  | cons x xs ih =>
    have hx : x = a := h x (by simp)
    subst hx
    have : xs.foldl min (min x x) = x := by
      simpa using ih (fun y hy => h y (by simp [hy]))
    simpa using this

theorem jsMin_const (l : List ℚ) (a : ℚ) (hl : l ≠ []) (h : ∀ x ∈ l, x = a) :
    jsMin l = a := by
  cases l with
  | nil => exact absurd rfl hl
  | cons x xs =>
    have hx : x = a := h x (by simp)
    subst hx
    exact foldl_min_const xs x (fun y hy => h y (by simp [hy]))

theorem foldl_max_const (l : List ℚ) (a : ℚ) (h : ∀ x ∈ l, x = a) : l.foldl max a = a := by
  induction l with
  | nil => simp
  | cons x xs ih =>
    have hx : x = a := h x (by simp)
    subst hx
    have : xs.foldl max (max x x) = x := by
      simpa using ih (fun y hy => h y (by simp [hy]))
    simpa using this

theorem jsMax_const (l : List ℚ) (a : ℚ) (hl : l ≠ []) (h : ∀ x ∈ l, x = a) :
    jsMax l = a := by
  cases l with
  | nil => exact absurd rfl hl
  | cons x xs =>
    have hx : x = a := h x (by simp)
    subst hx
    exact foldl_max_const xs x (fun y hy => h y (by simp [hy]))

theorem safeRange_min_le_max (vals : List ℚ) :
    (safeRange vals).min ≤ (safeRange vals).max := by
  unfold safeRange
  split
  · simp
  · next h =>
    have : vals ≠ [] := by
      intro hnil; subst hnil; simp at h
    simpa using jsMin_le_jsMax vals this

theorem safeRange_min_le_mem (vals : List ℚ) (v : ℚ) (hv : v ∈ vals) :
    (safeRange vals).min ≤ v := by
  unfold safeRange
  split
  · next h =>
    rw [List.length_eq_zero] at h
    subst h; simp at hv
  · simpa using jsMin_le vals v hv

theorem mem_le_safeRange_max (vals : List ℚ) (v : ℚ) (hv : v ∈ vals) :
    v ≤ (safeRange vals).max := by
  unfold safeRange
  split
  · next h =>
    rw [List.length_eq_zero] at h
    subst h; simp at hv
  · simpa using le_jsMax vals v hv

theorem sum_set_getD (l : List ℕ) : ∀ n : ℕ, n < l.length →
    (l.set n (l.getD n 0 + 1)).sum = l.sum + 1 := by
  induction l with
  | nil => intro n hn; simp at hn
  | cons x xs ih =>
    intro n hn
    cases n with
    | zero => simp [List.getD]; omega
    | succ m =>
      have hm : m < xs.length := by simpa using hn
      simp only [List.set, List.getD_cons_succ, List.sum_cons]
      rw [ih m hm]
      omega

theorem bump_length (bins : List ℕ) (i : ℤ) : (bump bins i).length = bins.length := by
  unfold bump
  split
  · simp
  · rfl

theorem bump_sum (bins : List ℕ) (i : ℤ) (h1 : 0 ≤ i) (h2 : i.toNat < bins.length) :
    (bump bins i).sum = bins.sum + 1 := by
  unfold bump
  rw [if_pos ⟨h1, h2⟩]
  exact sum_set_getD bins i.toNat h2

theorem foldl_bump_sum (f : ℚ → ℤ) (vs : List ℚ) : ∀ bins : List ℕ,
    (∀ v ∈ vs, 0 ≤ f v ∧ (f v).toNat < bins.length) →
    (vs.foldl (fun b v => bump b (f v)) bins).sum = bins.sum + vs.length := by
  induction vs with
  | nil => intro bins _; simp
  | cons v vs ih =>
    intro bins hb
    have hv := hb v (by simp)
    have hlen := bump_length bins (f v)
    have hrest : ∀ w ∈ vs, 0 ≤ f w ∧ (f w).toNat < (bump bins (f v)).length := by
      intro w hw
      rw [hlen]
      exact hb w (by simp [hw])
    simp only [List.foldl_cons]
    rw [ih (bump bins (f v)) hrest, bump_sum bins (f v) hv.1 hv.2]
    simp only [List.length_cons]
    omega

theorem binsOf_map_count (mn w : ℚ) (cs : List ℕ) : ∀ i : ℕ,
    ((binsOf mn w i cs).map (fun b => b.count)) = cs := by
  induction cs with
  | nil => intro i; simp [binsOf]
  | cons c cs ih => intro i; simp [binsOf, ih (i + 1)]

theorem exists_ge_of_sum_le (l : List ℚ) (a : ℚ) : l ≠ [] → a * l.length ≤ l.sum →
    ∃ v ∈ l, a ≤ v := by
  induction l with
  | nil => intro h; exact absurd rfl h
  | cons x xs ih =>
    intro _ hsum
    by_cases hx : a ≤ x
    · exact ⟨x, by simp, hx⟩
    · push_neg at hx
      by_cases hxs : xs = []
      · subst hxs
        simp at hsum
        exact absurd hsum (not_le.mpr hx)
      · have hlen : ((x :: xs).length : ℚ) = (xs.length : ℚ) + 1 := by
          push_cast [List.length_cons]
          ring
        have hsum' : a * xs.length ≤ xs.sum := by
          rw [List.sum_cons, hlen] at hsum
          nlinarith
        obtain ⟨v, hv, hav⟩ := ih hxs hsum'
        exact ⟨v, List.mem_cons_of_mem x hv, hav⟩

theorem exists_le_of_le_sum (l : List ℚ) (a : ℚ) : l ≠ [] → l.sum ≤ a * l.length →
    ∃ v ∈ l, v ≤ a := by
  induction l with
  | nil => intro h; exact absurd rfl h
  | cons x xs ih =>
    intro _ hsum
    by_cases hx : x ≤ a
    · exact ⟨x, by simp, hx⟩
    · push_neg at hx
      by_cases hxs : xs = []
      · subst hxs
        simp at hsum
        exact absurd hsum (not_le.mpr hx)
      · have hlen : ((x :: xs).length : ℚ) = (xs.length : ℚ) + 1 := by
          push_cast [List.length_cons]
          ring
        have hsum' : xs.sum ≤ a * xs.length := by
          rw [List.sum_cons, hlen] at hsum
          nlinarith
        obtain ⟨v, hv, hav⟩ := ih hxs hsum'
        exact ⟨v, List.mem_cons_of_mem x hv, hav⟩

/-! ### Evaluation lemmas on the sample inputs -/

theorem twoYear_loadData :
    mainLoadData twoYearRows = Except.ok (buildDataset (mainParse twoYearRows)) := by
  norm_num [mainLoadData, mainParse, twoYearRows, keepRow, toPre, preToDRec, jsYear, jsNumber,
    jsNumberOr0, baselineFilter]

theorem twoYear_baseline_ne :
    baselineFilter (mainParse twoYearRows) ≠ [] := by
  norm_num [mainParse, twoYearRows, keepRow, toPre, preToDRec, jsYear, jsNumber,
    jsNumberOr0, baselineFilter]
  exact List.cons_ne_nil _ _

theorem twoYear_safeMean :
    safeMean ((baselineFilter (mainParse twoYearRows)).map
      (fun d => d.key_streamflow_apr_jul_mm)) = 100 := by
  norm_num [mainParse, twoYearRows, keepRow, toPre, preToDRec, jsYear, jsNumber,
    jsNumberOr0, baselineFilter, safeMean]

theorem twoYear_beta0 :
    regressionBeta (buildDataset (mainParse twoYearRows)).years 0 = 1 := by
  norm_num [buildDataset, mainParse, twoYearRows, keepRow, toPre, preToDRec, jsYear, jsNumber,
    jsNumberOr0, baselineFilter, mkMeans, safeMean, epsAdjust, toYearData, regressionBeta,
    sumX2, sumXY, predDev, flowDev]

theorem twoYear_sumX2_fallSM :
    sumX2 (buildDataset (mainParse twoYearRows)).years 1 = 0 := by
  norm_num [buildDataset, mainParse, twoYearRows, keepRow, toPre, preToDRec, jsYear, jsNumber,
    jsNumberOr0, baselineFilter, mkMeans, safeMean, epsAdjust, toYearData, sumX2, predDev]

/-! ### Structural lemmas about the main pipeline -/

theorem mainLoadData_ok (rows : List RawRow) (d : Dataset)
    (h : mainLoadData rows = Except.ok d) : d = buildDataset (mainParse rows) := by
  unfold mainLoadData at h
  split at h
  · exact absurd h (by simp)
  · simpa using h.symm

theorem buildDataset_streamflow_range (data : List DRec) :
    (buildDataset data).ranges.streamflow_pct =
      safeRange (((buildDataset data).years).map (fun d => d.streamflow_pct)) := by
  simp [buildDataset]

theorem buildDataset_years (data : List DRec) :
    (buildDataset data).years = data.map (toYearData (mkMeans (baselineFilter data))) := rfl

theorem buildDataset_means (data : List DRec) :
    (buildDataset data).means = mkMeans (baselineFilter data) := rfl

/-! ### Claim theorems -/

/-- C1: for every loaded dataset and every triple of user input percentages
(including extreme values such as 0 or 500), the published forecast percent
lies within the closed interval `[min, max]` of the historical streamflow
percent series. -/
theorem forecastPct_within_streamflow_range (rows : List RawRow) (d : Dataset) (i1 i2 i3 : ℚ)
    (h : mainLoadData rows = Except.ok d) :
    d.ranges.streamflow_pct.min ≤ forecastPct d i1 i2 i3 ∧
      forecastPct d i1 i2 i3 ≤ d.ranges.streamflow_pct.max := by
  obtain rfl : d = buildDataset (mainParse rows) := mainLoadData_ok rows d h
  have hmm : (buildDataset (mainParse rows)).ranges.streamflow_pct.min ≤
      (buildDataset (mainParse rows)).ranges.streamflow_pct.max := by
    rw [buildDataset_streamflow_range]
    exact safeRange_min_le_max _
  constructor
  · exact le_max_left _ _
  · exact max_le hmm (min_le_left _ _)

/-- C1 witness: a concrete loaded dataset with an extreme input triple. -/
theorem forecastPct_within_streamflow_range_witness :
    (buildDataset (mainParse twoYearRows)).ranges.streamflow_pct.min ≤
        forecastPct (buildDataset (mainParse twoYearRows)) 0 500 100 ∧
      forecastPct (buildDataset (mainParse twoYearRows)) 0 500 100 ≤
        (buildDataset (mainParse twoYearRows)).ranges.streamflow_pct.max :=
  forecastPct_within_streamflow_range twoYearRows _ 0 500 100 twoYear_loadData

/-- C2: the main pipeline derives the absolute forecast in mm from the
clamped percent (first conjunct, definitional), but variant A derives it
from the raw unclamped percent: on the sample dataset with SWE input 500%
variant A publishes 500 mm-percent worth of flow while the clamped percent
it displays corresponds to 150 mm. -/
theorem forecastedFlowMM_raw_vs_clamped :
    forecastedFlowMM (buildDataset (mainParse twoYearRows)) 500 100 100 =
        forecastPct (buildDataset (mainParse twoYearRows)) 500 100 100 / 100 *
          (buildDataset (mainParse twoYearRows)).means.streamflow ∧
      variantA_forecastedFlowMM (variantA_parse twoYearRows) 500 100 100 ≠
        variantA_forecastPct (variantA_parse twoYearRows) 500 100 100 / 100 *
          (variantA_means (variantA_parse twoYearRows)).streamflow := by
  constructor
  · rfl
  · have h1 : variantA_forecastedFlowMM (variantA_parse twoYearRows) 500 100 100 = 500 := by
      norm_num [variantA_forecastedFlowMM, variantA_parse, variantA_keptRows, twoYearRows,
        jsTruthy, cellVal, variantA_means, variantA_processed, baselineFilter, toYearData,
        rawForecastPct, regressionBeta, sumX2, sumXY, predDev, flowDev]
    have h2 : variantA_forecastPct (variantA_parse twoYearRows) 500 100 100 = 150 := by
      norm_num [variantA_forecastPct, variantA_streamflowRange, variantA_parse, variantA_keptRows,
        twoYearRows, jsTruthy, cellVal, variantA_means, variantA_processed, baselineFilter,
        toYearData, rawForecastPct, regressionBeta, sumX2, sumXY, predDev, flowDev, jsMin, jsMax]
    have h3 : (variantA_means (variantA_parse twoYearRows)).streamflow = 100 := by
      norm_num [variantA_parse, variantA_keptRows, twoYearRows, jsTruthy, cellVal,
        variantA_means, baselineFilter]
    rw [h1, h2, h3]
    norm_num

/-- C3: on a parsed input with no 1991-2020 year the main pipeline stops
with the data error and publishes nothing, while variant A (no emptiness
check) still publishes a one-record dataset whose baseline means were
computed as `sum / 0` (`NaN` in JavaScript, junk `0` in this `ℚ`
embedding). -/
theorem loadData_empty_baseline_divergence :
    mainLoadData noBaselineRows = Except.error "No baseline (1991-2020) records found in CSV." ∧
      (variantA_processed (variantA_parse noBaselineRows)).length = 1 ∧
      (variantA_means (variantA_parse noBaselineRows)).streamflow = 0 := by
  refine ⟨?_, ?_, ?_⟩
  · norm_num [mainLoadData, mainParse, noBaselineRows, keepRow, toPre, preToDRec, jsYear,
      jsNumber, jsNumberOr0, baselineFilter]
  · norm_num [variantA_processed, variantA_parse, variantA_keptRows, noBaselineRows, jsTruthy,
      cellVal]
  · norm_num [variantA_means, variantA_parse, variantA_keptRows, noBaselineRows, jsTruthy,
      cellVal, baselineFilter]

/-- C7: the per-variable slope fit yields `Σ(xᵢ·y) / Σ(xᵢ²)` whenever the
denominator is nonzero, and 0 when the denominator vanishes (a predictor
constant at 100%). -/
theorem regressionBeta_formula (ys : List YearData) (i : Fin 3) :
    (sumX2 ys i ≠ 0 → regressionBeta ys i = sumXY ys i / sumX2 ys i) ∧
      (sumX2 ys i = 0 → regressionBeta ys i = 0) := by
  have hnn : 0 ≤ sumX2 ys i := by
    apply List.sum_nonneg
    intro x hx
    obtain ⟨y, _, rfl⟩ := List.mem_map.mp hx
    exact mul_self_nonneg _
  constructor
  · intro hne
    have hpos : sumX2 ys i > 0 := lt_of_le_of_ne hnn (Ne.symm hne)
    simp [regressionBeta, hpos]
  · intro h0
    simp [regressionBeta, h0]

/-- C7 witness: on the sample dataset the fall-soil-moisture predictor is
constant at 100%, so its coefficient is 0. -/
theorem regressionBeta_formula_witness :
    regressionBeta (buildDataset (mainParse twoYearRows)).years 1 = 0 :=
  (regressionBeta_formula (buildDataset (mainParse twoYearRows)).years 1).2 twoYear_sumX2_fallSM

/-- C10: with the other two inputs fixed, the clamped forecast percent is
monotone non-decreasing in any input whose fitted coefficient is
non-negative (the raw forecast is affine in each input and clamping into a
fixed interval preserves monotonicity). -/
theorem forecastPct_monotone (d : Dataset) (p q a b : ℚ) (hab : a ≤ b) :
    (0 ≤ regressionBeta d.years 0 → forecastPct d a p q ≤ forecastPct d b p q) ∧
      (0 ≤ regressionBeta d.years 1 → forecastPct d p a q ≤ forecastPct d p b q) ∧
      (0 ≤ regressionBeta d.years 2 → forecastPct d p q a ≤ forecastPct d p q b) := by
  refine ⟨?_, ?_, ?_⟩ <;> intro hcoef
  · have hraw : rawForecastPct d.years a p q ≤ rawForecastPct d.years b p q := by
      unfold rawForecastPct
      have := mul_le_mul_of_nonneg_right (sub_le_sub_right hab (100 : ℚ)) hcoef
      linarith
    exact max_le_max le_rfl (min_le_min le_rfl hraw)
  · have hraw : rawForecastPct d.years p a q ≤ rawForecastPct d.years p b q := by
      unfold rawForecastPct
      have := mul_le_mul_of_nonneg_right (sub_le_sub_right hab (100 : ℚ)) hcoef
      linarith
    exact max_le_max le_rfl (min_le_min le_rfl hraw)
  · have hraw : rawForecastPct d.years p q a ≤ rawForecastPct d.years p q b := by
      unfold rawForecastPct
      have := mul_le_mul_of_nonneg_right (sub_le_sub_right hab (100 : ℚ)) hcoef
      linarith
    exact max_le_max le_rfl (min_le_min le_rfl hraw)

/-- C10 witness: on the sample dataset the SWE coefficient is 1 ≥ 0 and the
forecast is monotone between SWE inputs 90 and 110. -/
theorem forecastPct_monotone_witness :
    forecastPct (buildDataset (mainParse twoYearRows)) 90 100 100 ≤
      forecastPct (buildDataset (mainParse twoYearRows)) 110 100 100 :=
  (forecastPct_monotone (buildDataset (mainParse twoYearRows)) 100 100 90 110
    (by norm_num)).1 (by rw [twoYear_beta0]; norm_num)

/-- C4: the main pipeline's histogram conserves the count (every value
lands in exactly one of the 15 bins via the clamped floor index, and a
constant series collapses to one full bin), while variant A's histogram
drops every value of a constant series (`NaN` bin index): on `[100, 100]`
its bin counts sum to 0, not 2. -/
theorem histogram_count_conservation :
    (∀ values : List ℚ, values ≠ [] →
        ((createHistogram values 15).map (fun b => b.count)).sum = values.length) ∧
      ((variantA_createHistogram [100, 100] 15).map (fun b => b.count)).sum = 0 := by
  constructor
  · intro values hne
    unfold createHistogram
    rw [if_neg (by simpa [List.length_eq_zero] using hne)]
    by_cases hd : |jsMax values - jsMin values| < 1 / 1000000
    · rw [if_pos hd]
      simp
    · rw [if_neg hd]
      rw [binsOf_map_count]
      have hle : jsMin values ≤ jsMax values := jsMin_le_jsMax values hne
      have habs : |jsMax values - jsMin values| = jsMax values - jsMin values :=
        abs_of_nonneg (by linarith)
      rw [habs] at hd
      push_neg at hd
      have hw : 0 < (jsMax values - jsMin values) / ((15 : ℕ) : ℚ) :=
        div_pos (by linarith) (by norm_num)
      have hb : ∀ v ∈ values,
          0 ≤ jsIdx (jsMin values) ((jsMax values - jsMin values) / ((15 : ℕ) : ℚ)) 15 v ∧
            (jsIdx (jsMin values) ((jsMax values - jsMin values) / ((15 : ℕ) : ℚ)) 15 v).toNat <
              (List.replicate 15 (0 : ℕ)).length := by
        intro v hv
        have hfl : 0 ≤ ⌊(v - jsMin values) / ((jsMax values - jsMin values) / ((15 : ℕ) : ℚ))⌋ :=
          Int.floor_nonneg.mpr
            (div_nonneg (sub_nonneg.mpr (jsMin_le values v hv)) hw.le)
        have h1 : 0 ≤ jsIdx (jsMin values) ((jsMax values - jsMin values) / ((15 : ℕ) : ℚ)) 15 v := by
          unfold jsIdx
          exact le_min hfl (by norm_num)
        have h2 : jsIdx (jsMin values) ((jsMax values - jsMin values) / ((15 : ℕ) : ℚ)) 15 v ≤ 14 := by
          unfold jsIdx
          exact le_trans (min_le_right _ _) (by norm_num)
        refine ⟨h1, ?_⟩
        rw [List.length_replicate]
        omega
      rw [foldl_bump_sum
        (jsIdx (jsMin values) ((jsMax values - jsMin values) / ((15 : ℕ) : ℚ)) 15) values
        (List.replicate 15 0) hb]
      simp
  · norm_num [variantA_createHistogram, jsMin, jsMax, binsOf, List.replicate]

/-- C4 witness: the conservation part applied to the constant series
`[5, 5]` (which exercises the degenerate branch). -/
theorem histogram_count_conservation_witness :
    ((createHistogram [5, 5] 15).map (fun b => b.count)).sum = 2 := by
  simpa using histogram_count_conservation.1 [5, 5] (by simp)

/-- C5: an all-identical series of value `v` yields exactly one bin of
count `length`, `binStart = v - 0.5`, `binEnd = v + 0.5` in the main
pipeline (no division by the zero bin width), while variant A returns 15
zero-width bins for the constant series `[100, 100]` after dividing by
zero. -/
theorem histogram_degenerate_single_bin :
    (∀ (values : List ℚ) (v : ℚ), values ≠ [] → (∀ x ∈ values, x = v) →
        createHistogram values 15 = [⟨v, values.length, v - 1 / 2, v + 1 / 2⟩]) ∧
      (variantA_createHistogram [100, 100] 15).length = 15 := by
  constructor
  · intro values v hne hall
    unfold createHistogram
    rw [if_neg (by simpa [List.length_eq_zero] using hne)]
    rw [jsMin_const values v hne hall, jsMax_const values v hne hall]
    rw [if_pos (by norm_num)]
  · norm_num [variantA_createHistogram, jsMin, jsMax, binsOf, List.replicate]

/-- C5 witness: the constant series `[7, 7]` collapses to the single
synthetic bin. -/
theorem histogram_degenerate_single_bin_witness :
    createHistogram [7, 7] 15 = [⟨7, 2, 13 / 2, 15 / 2⟩] := by
  have h := histogram_degenerate_single_bin.1 [7, 7] 7 (by simp)
    (by intro x hx; simp at hx; exact hx)
  rw [h]
  norm_num

/-- C6 counterexample: a loaded dataset (one baseline year, all
measurements zero, so the baseline streamflow mean is replaced by the
epsilon 1e-9): at the all-100 identity input the clamped forecast percent
is 0, not 100, and the absolute forecast differs from the baseline
streamflow mean. -/
theorem identity_input_zero_dataset :
    mainLoadData zeroFlowRows = Except.ok (buildDataset (mainParse zeroFlowRows)) ∧
      forecastPct (buildDataset (mainParse zeroFlowRows)) 100 100 100 = 0 ∧
      forecastedFlowMM (buildDataset (mainParse zeroFlowRows)) 100 100 100 ≠
        (buildDataset (mainParse zeroFlowRows)).means.streamflow := by
  refine ⟨?_, ?_, ?_⟩
  · norm_num [mainLoadData, mainParse, zeroFlowRows, keepRow, toPre, preToDRec, jsYear, jsNumber,
      jsNumberOr0, baselineFilter]
  · norm_num [forecastPct, buildDataset, mainParse, zeroFlowRows, keepRow, toPre, preToDRec,
      jsYear, jsNumber, jsNumberOr0, baselineFilter, mkMeans, safeMean, epsAdjust, toYearData,
      safeRange, jsMin, jsMax, rawForecastPct, regressionBeta, sumX2, sumXY, predDev, flowDev]
  · have h1 : forecastedFlowMM (buildDataset (mainParse zeroFlowRows)) 100 100 100 = 0 := by
      norm_num [forecastedFlowMM, forecastPct, buildDataset, mainParse, zeroFlowRows, keepRow,
        toPre, preToDRec, jsYear, jsNumber, jsNumberOr0, baselineFilter, mkMeans, safeMean,
        epsAdjust, toYearData, safeRange, jsMin, jsMax, rawForecastPct, regressionBeta, sumX2,
        sumXY, predDev, flowDev]
    have h2 : (buildDataset (mainParse zeroFlowRows)).means.streamflow = 1 / 1000000000 := by
      norm_num [buildDataset, mainParse, zeroFlowRows, keepRow, toPre, preToDRec, jsYear,
        jsNumber, jsNumberOr0, baselineFilter, mkMeans, safeMean, epsAdjust]
    rw [h1, h2]
    norm_num

/-- C6 as amended: whenever the baseline subset is non-empty and its
streamflow mean is nonzero (so the epsilon substitute is not used), the
all-100 input yields a clamped forecast percent of exactly 100 and an
absolute forecast equal to the baseline streamflow mean, because 100 then
lies inside the historical streamflow percent range. -/
theorem identity_scenario_nonzero_mean (data : List DRec)
    (hb : baselineFilter data ≠ [])
    (hm : safeMean ((baselineFilter data).map (fun d => d.key_streamflow_apr_jul_mm)) ≠ 0) :
    forecastPct (buildDataset data) 100 100 100 = 100 ∧
      forecastedFlowMM (buildDataset data) 100 100 100 = (buildDataset data).means.streamflow := by
  have hms' : (mkMeans (baselineFilter data)).streamflow =
      safeMean ((baselineFilter data).map (fun d => d.key_streamflow_apr_jul_mm)) := by
    simp [mkMeans, epsAdjust, hm]
  have hraw : rawForecastPct (buildDataset data).years 100 100 100 = 100 := by
    unfold rawForecastPct
    ring
  have hn1 : 0 < (baselineFilter data).length := List.length_pos.mpr hb
  have hmax : max (1 : ℚ)
      (((baselineFilter data).map (fun d => d.key_streamflow_apr_jul_mm)).length : ℚ) =
      ((baselineFilter data).length : ℚ) := by
    rw [List.length_map]
    apply max_eq_right
    exact_mod_cast hn1
  have hn0 : ((baselineFilter data).length : ℚ) ≠ 0 := by
    exact_mod_cast Nat.pos_iff_ne_zero.mp hn1
  have hS : ((baselineFilter data).map (fun d => d.key_streamflow_apr_jul_mm)).sum =
      safeMean ((baselineFilter data).map (fun d => d.key_streamflow_apr_jul_mm)) *
        ((baselineFilter data).length : ℚ) := by
    unfold safeMean
    rw [hmax]
    field_simp
  have hsum : ((baselineFilter data).map
        (fun d => d.key_streamflow_apr_jul_mm /
          safeMean ((baselineFilter data).map (fun e => e.key_streamflow_apr_jul_mm)) * 100)).sum =
      100 * (((baselineFilter data).map
        (fun d => d.key_streamflow_apr_jul_mm /
          safeMean ((baselineFilter data).map (fun e => e.key_streamflow_apr_jul_mm)) * 100)).length : ℚ) := by
    have hrw : ((baselineFilter data).map
          (fun d => d.key_streamflow_apr_jul_mm /
            safeMean ((baselineFilter data).map (fun e => e.key_streamflow_apr_jul_mm)) * 100)) =
        ((baselineFilter data).map
          (fun d => (fun e : DRec => e.key_streamflow_apr_jul_mm) d *
            (100 / safeMean ((baselineFilter data).map (fun e => e.key_streamflow_apr_jul_mm))))) := by
      apply List.map_congr_left
      intro d _
      ring
    rw [hrw, List.sum_map_mul_right, hS, List.length_map]
    field_simp
    ring
  have hpne : ((baselineFilter data).map
      (fun d => d.key_streamflow_apr_jul_mm /
        safeMean ((baselineFilter data).map (fun e => e.key_streamflow_apr_jul_mm)) * 100)) ≠ [] := by
    simpa using hb
  obtain ⟨phigh, hmemh, hgeh⟩ := exists_ge_of_sum_le _ 100 hpne (by rw [hsum])
  obtain ⟨plow, hmeml, hlel⟩ := exists_le_of_le_sum _ 100 hpne (by rw [hsum])
  have hcast : ∀ p ∈ ((baselineFilter data).map
      (fun d => d.key_streamflow_apr_jul_mm /
        safeMean ((baselineFilter data).map (fun e => e.key_streamflow_apr_jul_mm)) * 100)),
      p ∈ ((buildDataset data).years).map (fun y => y.streamflow_pct) := by
    intro p hp
    obtain ⟨d, hd, rfl⟩ := List.mem_map.mp hp
    have hd' : d ∈ data := List.mem_of_mem_filter hd
    rw [buildDataset_years, List.map_map]
    refine List.mem_map.mpr ⟨d, hd', ?_⟩
    simp [toYearData, hms']
  have hrng := buildDataset_streamflow_range data
  have hmx : (100 : ℚ) ≤ (buildDataset data).ranges.streamflow_pct.max := by
    rw [hrng]
    exact le_trans hgeh (mem_le_safeRange_max _ _ (hcast phigh hmemh))
  have hmn : (buildDataset data).ranges.streamflow_pct.min ≤ 100 := by
    rw [hrng]
    exact le_trans (safeRange_min_le_mem _ _ (hcast plow hmeml)) hlel
  have hfp : forecastPct (buildDataset data) 100 100 100 = 100 := by
    unfold forecastPct
    rw [hraw, min_eq_right hmx, max_eq_right hmn]
  refine ⟨hfp, ?_⟩
  unfold forecastedFlowMM
  rw [hfp]
  norm_num

/-- C6 amended witness: the sample dataset has baseline streamflow mean
100 ≠ 0, and the identity input reproduces it exactly. -/
theorem identity_scenario_nonzero_mean_witness :
    forecastPct (buildDataset (mainParse twoYearRows)) 100 100 100 = 100 ∧
      forecastedFlowMM (buildDataset (mainParse twoYearRows)) 100 100 100 =
        (buildDataset (mainParse twoYearRows)).means.streamflow :=
  identity_scenario_nonzero_mean (mainParse twoYearRows) twoYear_baseline_ne
    (by rw [twoYear_safeMean]; norm_num)

/-- Every record kept by the main pipeline carries the numeric year of a
source row (rows whose year cell is missing or non-numeric never reach the
dataset). -/
theorem mainParse_year_numeric (rows : List RawRow) (r : DRec) (hr : r ∈ mainParse rows) :
    ∃ row ∈ rows, jsYear row.water_year = some r.water_year := by
  unfold mainParse at hr
  obtain ⟨p, hp, rfl⟩ := List.mem_map.mp hr
  have hp2 := List.mem_filter.mp hp
  obtain ⟨row, hrow, rfl⟩ := List.mem_map.mp hp2.1
  have hrow2 := List.mem_filter.mp hrow
  refine ⟨row, hrow2.1, ?_⟩
  have hsome := hp2.2
  simp only [toPre, preToDRec] at hsome ⊢
  obtain ⟨y, hy⟩ := Option.isSome_iff_exists.mp (by simpa using hsome)
  rw [hy]
  simp

/-- C8: the main pipeline drops a row whose `water_year` is the
non-numeric string `n/a` and reads a missing measurement cell as 0, while
variant A's truthiness filter keeps the `n/a` row (its dataset then holds
a record without a numeric year). -/
theorem parser_row_filter_divergence :
    mainParse [strYearRow] = [] ∧
      variantA_keptRows [strYearRow] = [strYearRow] ∧
      mainParse [blankCellRow] = [⟨1995, 1995, 0, 2, 3, 4, 5⟩] := by
  refine ⟨?_, ?_, ?_⟩
  · norm_num [mainParse, strYearRow, keepRow, toPre, preToDRec, jsYear, jsNumber, jsNumberOr0]
  · norm_num [variantA_keptRows, strYearRow, jsTruthy]
    decide
  · norm_num [mainParse, blankCellRow, keepRow, toPre, preToDRec, jsYear, jsNumber, jsNumberOr0]

/-- C9: the analog list never exceeds 5 entries, it is non-empty whenever
some historical year passes the ±15-point tolerance test on all three
predictors, and the survivors are sorted by descending absolute streamflow
before the truncation to 5. -/
theorem analogYears_bound_and_sorted (ys : List YearData) (i1 i2 i3 : ℚ) :
    (analogYears ys i1 i2 i3).length ≤ 5 ∧
      ((∃ y ∈ ys, analogTol i1 i2 i3 y = true) → analogYears ys i1 i2 i3 ≠ []) ∧
      List.Sorted (fun a b => b.streamflow_mm ≤ a.streamflow_mm) (analogSorted ys i1 i2 i3) := by
  refine ⟨?_, ?_, ?_⟩
  · unfold analogYears
    rw [List.length_take]
    exact min_le_left _ _
  · intro h hnil
    unfold analogYears at hnil
    rcases List.take_eq_nil_iff.mp hnil with h5 | hs
    · omega
    · have hlen : (ys.filter (analogTol i1 i2 i3)).length = 0 := by
        have hperm := @List.length_mergeSort YearData
          (fun a b => decide (b.streamflow_mm ≤ a.streamflow_mm))
          (ys.filter (analogTol i1 i2 i3))
        unfold analogSorted at hs
        rw [hs] at hperm
        simpa using hperm.symm
      rw [List.length_eq_zero, List.filter_eq_nil_iff] at hlen
      obtain ⟨y, hy, hty⟩ := h
      exact hlen y hy hty
  · have h := @List.sorted_mergeSort YearData
      (fun a b => decide (b.streamflow_mm ≤ a.streamflow_mm))
      (fun a b c hab hbc => by
        simp only [decide_eq_true_eq] at hab hbc ⊢
        exact le_trans hbc hab)
      (fun a b => by
        simp only [Bool.or_eq_true, decide_eq_true_eq]
        exact le_total _ _)
      (ys.filter (analogTol i1 i2 i3))
    exact h.imp (fun hab => by simpa using hab)

/-- C9 witness: a dataset with one year at 100% everywhere has a
non-empty analog list for the all-100 input. -/
theorem analogYears_bound_and_sorted_witness :
    analogYears [analogProbeYear] 100 100 100 ≠ [] :=
  (analogYears_bound_and_sorted [analogProbeYear] 100 100 100).2.1
    ⟨analogProbeYear, by simp, by norm_num [analogTol, analogProbeYear]⟩

end UCRB
